import Mathlib

/-!
Verification of the MP-P2 signal-processing and prediction-fusion pipeline.

This file gives a shallow embedding, over exact rationals, of
* `extract_eeg_epochs` from `src/backend/app/utils/signal_processing.py`, and
* the `AdvancedFusionEngine` from `src/backend/app/services/ml/fusion_engine.py`,
and proves or refutes the specification claims about them.

Modelling conventions:
* Python floats are modelled as exact rationals (`ℚ`); float formatting in
  explanation strings is abstracted by decimal helpers (no claim reads them).
* Python dicts with a fixed key set are modelled as structures whose fields are
  `Option`-valued when the corresponding key may be absent (`d.get(k)`);
  a dict-valued probability table is an association list preserving insertion
  order, since the source iterates `dict.values()` / `dict.keys()` in order.
* Python exceptions are modelled with `Except String`; numpy broadcasting
  errors, empty-argmax errors and `range(_, _, 0)` errors are made explicit.
-/

deriving instance DecidableEq for Except

/- Batteries marks the rational-number operations irreducible for elaborator
performance; restore the default reducibility so that concrete witness
computations on exact rationals can be settled by `decide`. -/
set_option allowUnsafeReducibility true in
attribute [semireducible] Rat.add Rat.mul Rat.sub Rat.inv

namespace MP2

/-- `int(x)` of Python on a real: truncation toward zero. -/
def pyInt (q : ℚ) : ℤ := if 0 ≤ q then q.floor else -((-q).floor)

/-- `Rat.floor` agrees with the floor of the `FloorRing` instance. -/
theorem ratFloor_eq (q : ℚ) : q.floor = ⌊q⌋ := by
  rw [Rat.floor_def' q, Rat.floor_def]

/-- Python `range(0, stop, step)` as a list of Ints.
`step = 0` raises `ValueError` in Python; a positive step counts up from 0
while `< stop`, a negative step counts down from 0 while `> stop`. -/
def pyRange (stop step : ℤ) : Except String (List ℤ) :=
  if step = 0 then .error "range() arg 3 must not be zero"
  else if 0 < step then
    .ok ((List.range ((stop.toNat + step.toNat - 1) / step.toNat)).map
      (fun (i : ℕ) => (i : ℤ) * step))
  else
    .ok ((List.range (((-stop).toNat + (-step).toNat - 1) / (-step).toNat)).map
      (fun (i : ℕ) => (i : ℤ) * step))

/-- Python slice `data[a : b]` for `0 ≤ a` (the source only slices with
non-negative start positions, so the negative-index wrap-around of Python
slicing is not modelled). -/
def pySlice (data : List ℚ) (a b : ℤ) : List ℚ :=
  (data.drop a.toNat).take (b.toNat - a.toNat)

/-- `extract_eeg_epochs` of `src/backend/app/utils/signal_processing.py`
(lines 308-330):

    epoch_samples = int(epoch_length * sampling_rate)
    step_samples = int(epoch_samples * (1 - overlap))
    if epoch_samples > len(data): return [data]
    epochs = []
    for start in range(0, len(data) - epoch_samples + 1, step_samples):
        epochs.append(data[start:start + epoch_samples])
    return epochs
-/
def extract_eeg_epochs (data : List ℚ) (epoch_length overlap : ℚ)
    (sampling_rate : ℤ) : Except String (List (List ℚ)) :=
  let epoch_samples : ℤ := pyInt (epoch_length * (sampling_rate : ℚ))
  let step_samples : ℤ := pyInt ((epoch_samples : ℚ) * (1 - overlap))
  if epoch_samples > (data.length : ℤ) then .ok [data]
  else
    match pyRange ((data.length : ℤ) - epoch_samples + 1) step_samples with
    | .error e => .error e
    | .ok starts => .ok (starts.map (fun s => pySlice data s (s + epoch_samples)))

/-- C7 counterexample. The claim says that whenever `overlap ∈ [0,1)` and
`epoch_samples ≤ len(channel)`, epoching returns a non-empty list of epochs
with `step_samples ≥ 1`.  At `data = [1,2,3,4]`, `epoch_length = 1`,
`sampling_rate = 4`, `overlap = 0.9` we have `epoch_samples = 4 ≤ 4` and
`overlap ∈ [0,1)`, yet `step_samples = int(4 * 0.1) = 0` and the source's
`range(0, 1, 0)` raises `ValueError` instead of returning any epochs
(the code truncates with `int`, it neither rounds nor clamps the step to 1). -/
theorem extract_eeg_epochs_step_zero_error :
    extract_eeg_epochs [1, 2, 3, 4] 1 (9/10) 4 =
      .error "range() arg 3 must not be zero" ∧
    pyInt ((1 : ℚ) * ((4 : ℤ) : ℚ)) ≤ (([1, 2, 3, 4] : List ℚ).length : ℤ) ∧
    (0 : ℚ) ≤ 9/10 ∧ (9/10 : ℚ) < 1 := by
  decide

/-- C7 (amended): for every channel, epoch length, sampling rate and overlap
in `[0,1)` such that `epoch_samples = int(epoch_length * sampling_rate)` fits
in the channel and `step_samples = int(epoch_samples * (1 - overlap)) ≥ 1`
(truncation, not rounding), epoching returns the non-empty ordered list of
epochs of identical length `epoch_samples` whose start positions advance by
`step_samples` and which all lie inside the input channel. -/
theorem extract_eeg_epochs_characterization (data : List ℚ)
    (epoch_length overlap : ℚ) (sampling_rate : ℤ) (es st : ℤ)
    (hes : es = pyInt (epoch_length * (sampling_rate : ℚ)))
    (hst : st = pyInt ((es : ℚ) * (1 - overlap)))
    (hov0 : 0 ≤ overlap) (hov1 : overlap < 1)
    (hfit : es ≤ (data.length : ℤ)) (hstep : 1 ≤ st) :
    ∃ L, extract_eeg_epochs data epoch_length overlap sampling_rate = .ok L ∧
      L = (List.range ((data.length - es.toNat) / st.toNat + 1)).map
            (fun i => (data.drop (i * st.toNat)).take es.toNat) ∧
      L ≠ [] ∧
      (∀ ep ∈ L, ep.length = es.toNat) ∧
      (∀ i, i < (data.length - es.toNat) / st.toNat + 1 →
        i * st.toNat + es.toNat ≤ data.length) := by
  -- The step is computed from a non-negative quantity, hence via the floor.
  have h1ov : (0 : ℚ) < 1 - overlap := by linarith
  have hxnn : (0 : ℚ) ≤ (es : ℚ) * (1 - overlap) := by
    by_contra h
    push_neg at h
    have hc : st = -((-((es : ℚ) * (1 - overlap))).floor) := by
      rw [hst, pyInt, if_neg (not_le.mpr h)]
    have hnn : (0 : ℤ) ≤ (-((es : ℚ) * (1 - overlap))).floor := by
      rw [ratFloor_eq]
      exact Int.floor_nonneg.mpr (by linarith)
    omega
  have hstfloor : st = ⌊(es : ℚ) * (1 - overlap)⌋ := by
    rw [hst, pyInt, if_pos hxnn, ratFloor_eq]
  have hx1 : (1 : ℚ) ≤ (es : ℚ) * (1 - overlap) := by
    have h := hstep
    rw [hstfloor] at h
    exact_mod_cast Int.le_floor.mp h
  have hespos : (0 : ℚ) < (es : ℚ) := by
    by_contra h
    push_neg at h
    nlinarith [mul_nonneg (neg_nonneg.mpr h) h1ov.le]
  have hesq1 : (1 : ℚ) ≤ (es : ℚ) := by
    nlinarith [mul_nonneg hespos.le hov0]
  have hes1 : (1 : ℤ) ≤ es := by exact_mod_cast hesq1
  set e := es.toNat with he
  set s := st.toNat with hs
  have hesz : es = (e : ℤ) := by omega
  have hstz : st = (s : ℤ) := by omega
  have hs1 : 1 ≤ s := by omega
  have heL : e ≤ data.length := by omega
  set n := (data.length - e) / s + 1 with hn
  -- Containment of every epoch start.
  have hcontain : ∀ i, i < n → i * s + e ≤ data.length := by
    intro i hi
    have hi2 : i ≤ (data.length - e) / s := by omega
    have h3 : i * s ≤ ((data.length - e) / s) * s :=
      Nat.mul_le_mul_right s hi2
    have h4 : ((data.length - e) / s) * s ≤ data.length - e :=
      Nat.div_mul_le_self (data.length - e) s
    omega
  refine ⟨(List.range n).map (fun i => (data.drop (i * s)).take e), ?_, rfl, ?_, ?_, hcontain⟩
  · -- Evaluate the source function.
    have hcond : ¬ (pyInt (epoch_length * (sampling_rate : ℚ)) > (data.length : ℤ)) := by
      rw [← hes]; omega
    simp only [extract_eeg_epochs]
    rw [if_neg hcond, ← hes, ← hst]
    have hrange : pyRange ((data.length : ℤ) - es + 1) st =
        .ok ((List.range n).map (fun (i : ℕ) => (i : ℤ) * st)) := by
      have hst0 : ¬ st = 0 := by omega
      have hstpos : 0 < st := by omega
      simp only [pyRange, if_neg hst0, if_pos hstpos]
      have hstop : ((data.length : ℤ) - es + 1).toNat = data.length - e + 1 := by
        omega
      have hcnt : (((data.length : ℤ) - es + 1).toNat + st.toNat - 1) / st.toNat = n := by
        rw [hstop, ← hs, hn]
        have harg : data.length - e + 1 + s - 1 = (data.length - e) + s := by omega
        rw [harg, Nat.add_div_right _ (by omega : 0 < s)]
      rw [hcnt]
    rw [hrange]
    simp only [List.map_map]
    congr 1
    refine List.map_congr_left ?_
    intro i hi
    simp only [Function.comp]
    have h2 : ((i : ℤ) * st).toNat = i * s := by
      rw [hstz, ← Nat.cast_mul, Int.toNat_natCast]
    have h3 : ((i : ℤ) * st + es).toNat = i * s + e := by
      rw [hstz, hesz, ← Nat.cast_mul, ← Nat.cast_add, Int.toNat_natCast]
    simp only [pySlice, h2, h3]
    congr 1
    omega
  · -- Non-empty: `n = _ + 1`.
    simp [hn]
  · -- Identical epoch lengths.
    intro ep hep
    simp only [List.mem_map, List.mem_range] at hep
    obtain ⟨i, hi, rfl⟩ := hep
    have := hcontain i hi
    simp only [List.length_take, List.length_drop]
    omega

/-- C7 amended witness: 6 samples, 1-second epochs at 4 Hz with 50% overlap
give exactly the two epochs `[1,2,3,4]` and `[3,4,5,6]`. -/
theorem extract_eeg_epochs_characterization_witness :
    ∃ L, extract_eeg_epochs [1, 2, 3, 4, 5, 6] 1 (1/2) 4 = .ok L ∧
      L = (List.range 2).map
            (fun i => (([1, 2, 3, 4, 5, 6] : List ℚ).drop (i * 2)).take 4) ∧
      L ≠ [] ∧
      (∀ ep ∈ L, ep.length = 4) ∧
      (∀ i, i < 2 → i * 2 + 4 ≤ ([1, 2, 3, 4, 5, 6] : List ℚ).length) :=
  extract_eeg_epochs_characterization [1, 2, 3, 4, 5, 6] 1 (1/2) 4 4 2
    (by decide) (by decide) (by norm_num) (by norm_num) (by decide) (by decide)

/-- C8 counterexample. The claim says that whenever
`epoch_length * sampling_rate > len(channel)` the function returns the whole
channel as a single epoch without failing.  At `data = [0,0,0,0]`,
`epoch_length = 9/8`, `sampling_rate = 4`, `overlap = 0.9` the product is
`4.5 > 4`, but the source compares the truncation `int(4.5) = 4 > 4` (false),
falls through to the epoch loop, computes `step_samples = int(4 * 0.1) = 0`
and raises `ValueError` instead of returning the whole channel. -/
theorem extract_eeg_epochs_truncated_guard_error :
    extract_eeg_epochs [0, 0, 0, 0] (9/8) (9/10) 4 =
      .error "range() arg 3 must not be zero" ∧
    (([0, 0, 0, 0] : List ℚ).length : ℚ) < (9/8) * ((4 : ℤ) : ℚ) := by
  decide

/-- C8 (amended): whenever the truncated epoch size
`int(epoch_length * sampling_rate)` exceeds the channel length, the epoching
operation does not fail and returns exactly one epoch equal to the whole
channel. -/
theorem extract_eeg_epochs_short_data_single_epoch (data : List ℚ)
    (epoch_length overlap : ℚ) (sampling_rate : ℤ)
    (h : (data.length : ℤ) < pyInt (epoch_length * (sampling_rate : ℚ))) :
    extract_eeg_epochs data epoch_length overlap sampling_rate = .ok [data] := by
  simp only [extract_eeg_epochs]
  rw [if_pos h]

/-- C8 amended witness: a 3-sample channel with 2-second epochs at 4 Hz
(8 > 3 samples) comes back whole. -/
theorem extract_eeg_epochs_short_data_single_epoch_witness :
    ((([1, 2, 3] : List ℚ).length : ℤ) < pyInt ((2 : ℚ) * ((4 : ℤ) : ℚ))) ∧
    extract_eeg_epochs [1, 2, 3] 2 (1/2) 4 = .ok [[1, 2, 3]] :=
  ⟨by decide, extract_eeg_epochs_short_data_single_epoch [1, 2, 3] 2 (1/2) 4 (by decide)⟩

/-! ## Data model of `fusion_engine.py`

The engine manipulates Python dicts with fixed key sets; each is modelled as
a structure with `Option`-valued fields (`none` = key absent).  Python's
truthiness test `if d:` on such a dict (false exactly for the empty dict) is
modelled by a `truthy` predicate per structure.  A probability table
(`dict[str, float]`) is an association list preserving insertion order. -/

/-- A prediction dict: `{label, confidence, probabilities}` (any key may be
absent; the source always accesses them with `.get` and a default). -/
structure Pred where
  label : Option String
  confidence : Option ℚ
  probabilities : Option (List (String × ℚ))
deriving DecidableEq, Repr

/-- Python truthiness of a prediction dict (false iff the dict is empty). -/
def Pred.truthy (p : Pred) : Bool :=
  p.label.isSome || p.confidence.isSome || p.probabilities.isSome

/-- `text_results['sentiment']`: `{label, score}`. -/
structure Sentiment where
  label : Option String
  score : Option ℚ
deriving DecidableEq, Repr

/-- `text_results['anxiety_keywords']`: only the `level` key is read. -/
structure AnxietyKeywords where
  level : Option String
deriving DecidableEq, Repr

/-- `text_results['safety_flags']`: only `has_crisis_indicators` is read. -/
structure SafetyFlags where
  has_crisis_indicators : Bool
deriving DecidableEq, Repr

/-- The text-classifier output dict consumed by the engine. -/
structure TextResults where
  sentiment : Option Sentiment
  depression : Option Pred
  anxiety_keywords : Option AnxietyKeywords
  safety_flags : Option SafetyFlags
deriving DecidableEq, Repr

/-- Python truthiness of the text-results dict. -/
def TextResults.truthy (t : TextResults) : Bool :=
  t.sentiment.isSome || t.depression.isSome ||
  t.anxiety_keywords.isSome || t.safety_flags.isSome

/-- The EEG-model output dict consumed by the engine. -/
structure EEGResults where
  emotion : Option Pred
  anxiety : Option Pred
deriving DecidableEq, Repr

/-- Python truthiness of the EEG-results dict. -/
def EEGResults.truthy (e : EEGResults) : Bool :=
  e.emotion.isSome || e.anxiety.isSome

/-- `x if x else None` for an optional prediction: collapses a Python-falsy
value to `None`. -/
def getTruthyPred (p : Option Pred) : Option Pred :=
  match p with
  | some q => if q.truthy then some q else none
  | none => none

/-- `x if x else None` for the optional EEG-results dict. -/
def getTruthyEEG (e : Option EEGResults) : Option EEGResults :=
  match e with
  | some r => if r.truthy then some r else none
  | none => none

/-- `x if x else None` for the optional text-results dict. -/
def getTruthyText (t : Option TextResults) : Option TextResults :=
  match t with
  | some r => if r.truthy then some r else none
  | none => none

/-- `d.get(k, default)` on a probability table. -/
def lookupD (m : List (String × ℚ)) (k : String) (d : ℚ) : ℚ :=
  match m.find? (fun kv => kv.1 == k) with
  | some kv => kv.2
  | none => d

/-- `d.get(k)` on a user-calibration dict (`None` when the key is absent). -/
def calLookup (m : List (String × ℚ)) (k : String) : Option ℚ :=
  (m.find? (fun kv => kv.1 == k)).map (fun kv => kv.2)

/-- `list(d.values())`. -/
def vals (m : List (String × ℚ)) : List ℚ := m.map (fun kv => kv.2)

/-- `list(d.keys())`. -/
def keys (m : List (String × ℚ)) : List String := m.map (fun kv => kv.1)

/-- numpy elementwise addition with broadcasting: arrays of equal length add
elementwise, a length-1 array broadcasts against the other, anything else
raises "operands could not be broadcast together". -/
def npAdd (x y : List ℚ) : Except String (List ℚ) :=
  if x.length = y.length then .ok (List.zipWith (fun a b => a + b) x y)
  else if x.length = 1 then .ok (y.map (fun b => x.headD 0 + b))
  else if y.length = 1 then .ok (x.map (fun a => a + y.headD 0))
  else .error "operands could not be broadcast together"

/-- Auxiliary loop for `np.argmax`: first index of the maximum. -/
def argmaxGo : List ℚ → ℕ → ℕ → ℚ → ℕ
  | [], _, bi, _ => bi
  | x :: xs, i, bi, bv =>
    if bv < x then argmaxGo xs (i + 1) i x else argmaxGo xs (i + 1) bi bv

/-- `np.argmax` on a 1-d array: first index of the maximum; raises on an
empty array. -/
def npArgmax (l : List ℚ) : Except String ℕ :=
  match l with
  | [] => .error "attempt to get argmax of an empty sequence"
  | x :: xs => .ok (argmaxGo xs 1 0 x)

/-- Rendering of `f"{q*100:.0f}"`-style percentages in explanation strings
(decimal formatting of floats is abstracted to rounding the exact rational;
no claim depends on these strings). -/
def fmtPct (q : ℚ) : String := toString (round (q * 100))

/-- Rendering of `f"{q:.2f}"` in the risk-score sentence, abstracted to the
number of hundredths. -/
def fmtScore (q : ℚ) : String := toString (round (q * 100))

/-! ## AdvancedFusionEngine (`fusion_engine.py`) -/

/-- A fused prediction dict as built by `_fuse_with_attention`,
`_bayesian_update` or `_ensemble_predictions`, or passed through unchanged
from an input prediction.  `agreement`, `weights_used` and `method` are the
extra keys the source adds in the respective branches. -/
structure FusedPred where
  label : Option String
  confidence : Option ℚ
  probabilities : Option (List (String × ℚ))
  agreement : Option Bool
  weights_used : Option (ℚ × ℚ)
  method : Option String
deriving DecidableEq, Repr

/-- An input prediction passed through unchanged (`elif eeg_pred: return
eeg_pred`). -/
def Pred.toFused (p : Pred) : FusedPred :=
  ⟨p.label, p.confidence, p.probabilities, none, none, none⟩

/-- Per-target `{'eeg': w, 'text': w}` weight dict. -/
structure Weights2 where
  eeg : ℚ
  text : ℚ
deriving DecidableEq, Repr

/-- `{'emotion': {...}, 'anxiety': {...}}` attention-weight dict. -/
structure AttWeights where
  emotion : Weights2
  anxiety : Weights2
deriving DecidableEq, Repr

/-- The `importance` entry of the fusion-results dict: the attention-weight
dict in attention mode, a `{'method': ...}`-tagged dict in bayesian and
ensemble mode (the `priors_used` / `components` keys are never read), absent
in a safety-override result.  None of these dicts contains an `'eeg'` or
`'text'` key. -/
inductive Importance where
  | empty : Importance
  | attention : AttWeights → Importance
  | tagged : String → Importance
deriving DecidableEq, Repr

/-- The `{'emotion': ..., 'anxiety': ..., 'importance': ...}` dict returned
by `_attention_fusion` / `_bayesian_fusion` / `_ensemble_fusion`. -/
structure FusionInner where
  emotion : FusedPred
  anxiety : FusedPred
  importance : Importance
deriving DecidableEq, Repr

/-- Result dict of `_assess_risk_level_advanced`. -/
structure RiskAssessment where
  level : String
  confidence : ℚ
  risk_score : ℚ
  risk_factors : List ℚ
deriving DecidableEq, Repr

/-- The dict returned by `fuse_predictions`.  Keys absent on a given path
are modelled by `none` (and by `false` for the two booleans, matching the
falsy `.get` reads of all consumers). -/
structure FusionOutput where
  risk_level : String
  confidence : ℚ
  safety_override : Bool
  emotion_fusion : Option FusedPred
  anxiety_fusion : Option FusedPred
  explanation : List String
  feature_importance : Importance
  fusion_method : Option String
  safety_flags : Option SafetyFlags
  recommendations_priority : Option String
  emergency_resources : Bool
deriving DecidableEq, Repr

/-- `text_results and text_results.get('safety_flags', {}).get('has_crisis_indicators')`
(fusion_engine.py line 393). -/
def textCrisis (t : Option TextResults) : Bool :=
  match t with
  | none => false
  | some tr =>
    tr.truthy &&
    (match tr.safety_flags with
     | some sf => sf.has_crisis_indicators
     | none => false)

/-- `text_results and text_results.get('depression', {}).get('label') == 'severe'
and text_results.get('depression', {}).get('confidence', 0) > 0.7`
(fusion_engine.py lines 408-410). -/
def textSevereDepression (t : Option TextResults) : Bool :=
  match t with
  | none => false
  | some tr =>
    tr.truthy &&
    (match tr.depression with
     | some d => d.label == some "severe" && decide ((7:ℚ)/10 < d.confidence.getD 0)
     | none => false)

/-- `_apply_safety_rules` (fusion_engine.py lines 385-424): crisis indicators
and severe depression short-circuit fusion with fixed override dicts. -/
def apply_safety_rules (_eeg : Option EEGResults) (text : Option TextResults) :
    Option FusionOutput :=
  if textCrisis text then
    some { risk_level := "high"
           confidence := 19/20
           safety_override := true
           emotion_fusion := none
           anxiety_fusion := none
           explanation := ["Crisis indicators detected in text input",
                           "Immediate professional help recommended",
                           "Safety is the top priority"]
           feature_importance := .empty
           fusion_method := none
           safety_flags := none
           recommendations_priority := none
           emergency_resources := true }
  else if textSevereDepression text then
    some { risk_level := "high"
           confidence := 9/10
           safety_override := true
           emotion_fusion := none
           anxiety_fusion := none
           explanation := ["Severe depression indicators in text analysis",
                           "Professional evaluation recommended within 24-48 hours",
                           "This assessment is for guidance only, not diagnosis"]
           feature_importance := .empty
           fusion_method := none
           safety_flags := none
           recommendations_priority := none
           emergency_resources := false }
  else none

/-- `eeg_results.get('emotion', {}).get('confidence', 0.5)`. -/
def eegEmotionConf (er : EEGResults) : ℚ :=
  match er.emotion with
  | some p => p.confidence.getD (1/2)
  | none => 1/2

/-- `text_results.get('sentiment', {}).get('score', 0.5)`. -/
def textSentimentScore (tr : TextResults) : ℚ :=
  match tr.sentiment with
  | some s => s.score.getD (1/2)
  | none => 1/2

/-- Overwrite one weight from the user-calibration dict when the key
`"<source>_<modality>_weight"` is present. -/
def calOverride (cal : List (String × ℚ)) (k : String) (w : ℚ) : ℚ :=
  (calLookup cal k).getD w

/-- `_get_attention_weights` (fusion_engine.py lines 203-235): base weights
0.7/0.3 (emotion) and 0.8/0.2 (anxiety); when both sources are truthy the
EMOTION weights are replaced by confidence-normalized ones (the anxiety
weights are not touched); a truthy user-calibration dict then overrides any
weight whose key it contains. -/
def get_attention_weights (eeg : Option EEGResults) (text : Option TextResults)
    (cal : Option (List (String × ℚ))) : AttWeights :=
  let base : AttWeights := ⟨⟨7/10, 3/10⟩, ⟨4/5, 1/5⟩⟩
  let base :=
    match eeg, text with
    | some er, some tr =>
      if er.truthy && tr.truthy then
        let ec := eegEmotionConf er
        let tc := textSentimentScore tr
        let total := ec + tc
        if 0 < total then
          { base with emotion := ⟨ec / total, tc / total⟩ }
        else base
      else base
    | _, _ => base
  match cal with
  | some c =>
    if c.isEmpty then base
    else
      { emotion := ⟨calOverride c "eeg_emotion_weight" base.emotion.eeg,
                    calOverride c "text_emotion_weight" base.emotion.text⟩
        anxiety := ⟨calOverride c "eeg_anxiety_weight" base.anxiety.eeg,
                    calOverride c "text_anxiety_weight" base.anxiety.text⟩ }
  | none => base

/-- `_fuse_with_attention` (fusion_engine.py lines 237-273): weighted sum of
the two probability vectors when both predictions are truthy, pass-through
when exactly one is, and the `{'label': 'neutral', 'confidence': 0.3}`
default when neither is. -/
def fuse_with_attention (eeg0 text0 : Option Pred) (w : Weights2) :
    Except String FusedPred :=
  match getTruthyPred eeg0, getTruthyPred text0 with
  | some ep, some tp =>
    let eeg_probs := vals (ep.probabilities.getD [])
    let text_probs := vals (tp.probabilities.getD [])
    match npAdd (eeg_probs.map (fun p => w.eeg * p))
                (text_probs.map (fun p => w.text * p)) with
    | .error e => .error e
    | .ok fused =>
      let classes := keys (ep.probabilities.getD [])
      match npArgmax fused with
      | .error e => .error e
      | .ok best_idx =>
        match classes.get? best_idx with
        | none => .error "list index out of range"
        | some best_class =>
          .ok { label := some best_class
                confidence := some ((fused.get? best_idx).getD 0)
                probabilities := some (classes.zip fused)
                agreement := some (ep.label == tp.label)
                weights_used := some (w.eeg, w.text)
                method := none }
  | some ep, none => .ok ep.toFused
  | none, some tp => .ok tp.toFused
  | none, none =>
    .ok { label := some "neutral", confidence := some (3/10),
          probabilities := none, agreement := none, weights_used := none,
          method := none }

/-- `_text_to_emotion` (fusion_engine.py lines 338-365). -/
def text_to_emotion (text : Option TextResults) : Option Pred :=
  match getTruthyText text with
  | none => none
  | some tr =>
    let sentiment_label :=
      match tr.sentiment with
      | some s => s.label.getD "neutral"
      | none => "neutral"
    let emotion_label :=
      if sentiment_label = "positive" then "happy"
      else if sentiment_label = "negative" then "sad"
      else "neutral"
    some { label := some emotion_label
           confidence := some (match tr.sentiment with
                               | some s => s.score.getD (1/2)
                               | none => 1/2)
           probabilities := some
             [("happy", if emotion_label = "happy" then 4/5 else 1/10),
              ("sad", if emotion_label = "sad" then 4/5 else 1/10),
              ("neutral", if emotion_label = "neutral" then 4/5 else 1/10),
              ("stressed", 1/10),
              ("relaxed", 1/10)] }

/-- `_text_to_anxiety` (fusion_engine.py lines 367-383). -/
def text_to_anxiety (text : Option TextResults) : Option Pred :=
  match getTruthyText text with
  | none => none
  | some tr =>
    let level :=
      match tr.anxiety_keywords with
      | some ak => ak.level.getD "low"
      | none => "low"
    some { label := some level
           confidence := some (7/10)
           probabilities := some
             [("low", if level = "low" then 4/5 else 1/10),
              ("moderate", if level = "moderate" then 4/5 else 1/10),
              ("high", if level = "high" then 4/5 else 1/10)] }

/-- `eeg_results.get('emotion') if eeg_results else None`. -/
def eegEmotionPred (eeg : Option EEGResults) : Option Pred :=
  match getTruthyEEG eeg with
  | some er => er.emotion
  | none => none

/-- `eeg_results.get('anxiety') if eeg_results else None`. -/
def eegAnxietyPred (eeg : Option EEGResults) : Option Pred :=
  match getTruthyEEG eeg with
  | some er => er.anxiety
  | none => none

/-- `_attention_fusion` (fusion_engine.py lines 117-146). -/
def attention_fusion (eeg : Option EEGResults) (text : Option TextResults)
    (cal : Option (List (String × ℚ))) : Except String FusionInner := do
  let w := get_attention_weights eeg text cal
  let em ← fuse_with_attention (eegEmotionPred eeg)
    (match getTruthyText text with
     | some _ => text_to_emotion text
     | none => none) w.emotion
  let ax ← fuse_with_attention (eegAnxietyPred eeg)
    (match getTruthyText text with
     | some _ => text_to_anxiety text
     | none => none) w.anxiety
  return ⟨em, ax, .attention w⟩

/-- The fixed population priors of the engine constructor
(fusion_engine.py lines 24-42). -/
def priorsEmotion : List (String × ℚ) :=
  [("happy", 1/4), ("sad", 3/20), ("neutral", 7/20),
   ("stressed", 1/5), ("relaxed", 1/20)]

/-- Anxiety prior of the engine constructor. -/
def priorsAnxiety : List (String × ℚ) :=
  [("low", 3/5), ("moderate", 3/10), ("high", 1/10)]

/-- The unnormalized posterior of `_bayesian_update` (fusion_engine.py
lines 283-297): prior times the available likelihood vectors (a missing
class probability defaults to `1/len(classes)`). -/
def bayesianUnnormalized (eeg0 text0 : Option Pred)
    (prior : List (String × ℚ)) : List ℚ :=
  let classes := keys prior
  let posterior0 := vals prior
  let posterior1 :=
    match getTruthyPred eeg0 with
    | some p =>
      List.zipWith (fun a b => a * b) posterior0
        (classes.map (fun c =>
          lookupD (p.probabilities.getD []) c (1 / (classes.length : ℚ))))
    | none => posterior0
  match getTruthyPred text0 with
  | some p =>
    List.zipWith (fun a b => a * b) posterior1
      (classes.map (fun c =>
        lookupD (p.probabilities.getD []) c (1 / (classes.length : ℚ))))
  | none => posterior1

/-- The normalized posterior of `_bayesian_update` (line 300):
`posterior / np.sum(posterior)`.  numpy's silent `0/0 = nan` at a zero
normalizer is outside the rational model (Lean's `/0 = 0`); the claims
about this function assume a positive normalizer. -/
def bayesianPosterior (eeg0 text0 : Option Pred)
    (prior : List (String × ℚ)) : List ℚ :=
  let u := bayesianUnnormalized eeg0 text0 prior
  u.map (fun p => p / u.sum)

/-- `_bayesian_update` (fusion_engine.py lines 275-312). -/
def bayesian_update (eeg0 text0 : Option Pred) (prior : List (String × ℚ)) :
    Except String FusedPred :=
  let classes := keys prior
  let posterior := bayesianPosterior eeg0 text0 prior
  match npArgmax posterior with
  | .error e => .error e
  | .ok best_idx =>
    match classes.get? best_idx with
    | none => .error "list index out of range"
    | some best_class =>
      .ok { label := some best_class
            confidence := some ((posterior.get? best_idx).getD 0)
            probabilities := some (classes.zip posterior)
            agreement := none
            weights_used := none
            method := some "bayesian" }

/-- `_bayesian_fusion` (fusion_engine.py lines 148-173). -/
def bayesian_fusion (eeg : Option EEGResults) (text : Option TextResults) :
    Except String FusionInner := do
  let em ← bayesian_update (eegEmotionPred eeg)
    (match getTruthyText text with
     | some _ => text_to_emotion text
     | none => none) priorsEmotion
  let ax ← bayesian_update (eegAnxietyPred eeg)
    (match getTruthyText text with
     | some _ => text_to_anxiety text
     | none => none) priorsAnxiety
  return ⟨em, ax, .tagged "bayesian"⟩

/-- `_ensemble_predictions` (fusion_engine.py lines 314-336).  Its two
arguments are always the truthy dicts produced by the two fusion methods, so
the `if not pred1 or not pred2` guard of the source never fires. -/
def ensemble_predictions (pred1 pred2 : FusedPred) : Except String FusedPred :=
  let classes := keys (pred1.probabilities.getD [])
  let probs1 := vals (pred1.probabilities.getD [])
  let probs2 := vals (pred2.probabilities.getD [])
  match npAdd probs1 probs2 with
  | .error e => .error e
  | .ok summed =>
    let ensemble := summed.map (fun p => p / 2)
    match npArgmax ensemble with
    | .error e => .error e
    | .ok best_idx =>
      match classes.get? best_idx with
      | none => .error "list index out of range"
      | some best_class =>
        .ok { label := some best_class
              confidence := some ((ensemble.get? best_idx).getD 0)
              probabilities := some (classes.zip ensemble)
              agreement := none
              weights_used := none
              method := some "ensemble" }

/-- `_ensemble_fusion` (fusion_engine.py lines 175-201). -/
def ensemble_fusion (eeg : Option EEGResults) (text : Option TextResults) :
    Except String FusionInner := do
  let att ← attention_fusion eeg text none
  let bay ← bayesian_fusion eeg text
  let em ← ensemble_predictions att.emotion bay.emotion
  let ax ← ensemble_predictions att.anxiety bay.anxiety
  return ⟨em, ax, .tagged "ensemble"⟩

/-- The `anxiety_levels.get(anxiety.get('label', 'low'), 0)` lookup of
`_assess_risk_level_advanced`. -/
def anxietyLevelD (l : String) : ℚ :=
  if l = "low" then 0 else if l = "moderate" then 1
  else if l = "high" then 2 else 0

/-- The `depression_levels.get(depression.get('label', 'not_depressed'), 0)`
lookup of `_assess_risk_level_advanced`. -/
def depressionLevelD (l : String) : ℚ :=
  if l = "not_depressed" then 0 else if l = "moderate" then 1
  else if l = "severe" then 2 else 0

/-- The risk-factor list of `_assess_risk_level_advanced` (lines 433-449):
the emotion factor is appended ONLY when the fused emotion label is sad or
stressed (2 when its confidence exceeds 0.7, else 1), the anxiety factor is
always appended, and the depression factor is appended whenever the text
dict is truthy.  The positional weights 0.3/0.4/0.3 are then zipped against
whatever list resulted. -/
def risk_factors_of (emotionF anxietyF : FusedPred) (text : Option TextResults) :
    List ℚ :=
  (if emotionF.label = some "sad" ∨ emotionF.label = some "stressed" then
    [if (7:ℚ)/10 < emotionF.confidence.getD 0 then (2:ℚ) else 1]
   else []) ++
  [anxietyLevelD (anxietyF.label.getD "low")] ++
  (match getTruthyText text with
   | some tr =>
     [depressionLevelD
       (match tr.depression with
        | some d => d.label.getD "not_depressed"
        | none => "not_depressed")]
   | none => [])

/-- The constant weight list `[0.3, 0.4, 0.3]` of
`_assess_risk_level_advanced` (line 452). -/
def riskWeights : List ℚ := [3/10, 2/5, 3/10]

/-- `sum(w * r for w, r in zip(weights, risk_factors)) / sum(weights)`
(line 453): positional weighting of however many factors were appended,
divided by the full weight sum 1.0 (no renormalization over the present
subset). -/
def risk_score_of (emotionF anxietyF : FusedPred) (text : Option TextResults) : ℚ :=
  (List.zipWith (fun w r => w * r) riskWeights
    (risk_factors_of emotionF anxietyF text)).sum / riskWeights.sum

/-- The fixed thresholds of `_assess_risk_level_advanced` (lines 456-467). -/
def riskLevelOfScore (s : ℚ) : String :=
  if 3/2 ≤ s then "high" else if 1 ≤ s then "moderate"
  else if 1/2 ≤ s then "mild" else "stable"

/-- The per-bucket confidences of `_assess_risk_level_advanced`. -/
def riskConfidenceOfScore (s : ℚ) : ℚ :=
  if 3/2 ≤ s then 17/20 else if 1 ≤ s then 3/4
  else if 1/2 ≤ s then 13/20 else 7/10

/-- `_assess_risk_level_advanced` (fusion_engine.py lines 426-474). -/
def assess_risk_level_advanced (emotionF anxietyF : FusedPred)
    (text : Option TextResults) : RiskAssessment :=
  let score := risk_score_of emotionF anxietyF text
  { level := riskLevelOfScore score
    confidence := riskConfidenceOfScore score
    risk_score := score
    risk_factors := risk_factors_of emotionF anxietyF text }

/-- `_generate_explanation_with_importance` (fusion_engine.py lines
476-530).  The `'eeg' in importance and 'text' in importance` branch never
fires, because every importance dict the engine builds has keys
`{'emotion','anxiety'}` or `{'method',...}` (see `Importance`). -/
def generate_explanation (fr : FusionInner) (ra : RiskAssessment) :
    List String :=
  let emotionPart :=
    match fr.emotion.label with
    | some l =>
      if l = "" then []
      else
        let c := fmtPct (fr.emotion.confidence.getD 0)
        [s!"Combined analysis indicates {l} emotional state with {c}% confidence"]
    | none => []
  let anxietyPart :=
    match fr.anxiety.label with
    | some l =>
      if l = "" then []
      else
        let c := fmtPct (fr.anxiety.confidence.getD 0)
        [s!"Anxiety level assessed as {l} with {c}% confidence"]
    | none => []
  let sc := fmtScore ra.risk_score
  let lv := ra.level
  let riskPart := [s!"Overall risk assessment: {lv} (score: {sc}/2.0)"]
  let m :=
    match fr.importance with
    | .tagged mth => mth
    | _ => "attention"
  let methodPart := [s!"Analysis used {m} fusion method for optimal accuracy"]
  emotionPart ++ anxietyPart ++ riskPart ++ methodPart

/-- `_get_recommendation_priority` (fusion_engine.py lines 532-540). -/
def get_recommendation_priority (risk_level : String) : String :=
  if risk_level = "stable" then "maintenance"
  else if risk_level = "mild" then "prevention"
  else if risk_level = "moderate" then "intervention"
  else if risk_level = "high" then "crisis"
  else "prevention"

/-- `fuse_predictions` (fusion_engine.py lines 54-115): safety rules first,
then the selected fusion method, risk assessment, explanations; the whole
body runs inside `try: ... except Exception as e: raise ValueError(
f"Advanced prediction fusion failed: {str(e)}")`. -/
def fuse_predictions (eeg : Option EEGResults) (text : Option TextResults)
    (cal : Option (List (String × ℚ))) (fusion_method : String) :
    Except String FusionOutput :=
  match apply_safety_rules eeg text with
  | some override => .ok override
  | none =>
    ((if fusion_method = "attention" then attention_fusion eeg text cal
      else if fusion_method = "bayesian" then bayesian_fusion eeg text
      else ensemble_fusion eeg text).bind (fun fr =>
        let ra := assess_risk_level_advanced fr.emotion fr.anxiety text
        let expl := generate_explanation fr ra
        .ok { risk_level := ra.level
              confidence := ra.confidence
              safety_override := false
              emotion_fusion := some fr.emotion
              anxiety_fusion := some fr.anxiety
              explanation := expl
              feature_importance := fr.importance
              fusion_method := some fusion_method
              safety_flags :=
                (match getTruthyText text with
                 | some tr => tr.safety_flags
                 | none => none)
              recommendations_priority := some (get_recommendation_priority ra.level)
              emergency_resources := false })).mapError
      (fun e => "Advanced prediction fusion failed: " ++ e)

/-! ## Shared helper lemmas -/

/-- Pass-through of a truthy EEG-only prediction in `_fuse_with_attention`. -/
theorem fuse_with_attention_eeg_only (p : Pred) (w : Weights2)
    (hp : p.truthy = true) :
    fuse_with_attention (some p) none w = .ok p.toFused := by
  simp [fuse_with_attention, getTruthyPred, hp]

/-- Pass-through of a truthy text-only prediction in `_fuse_with_attention`. -/
theorem fuse_with_attention_text_only (p : Pred) (w : Weights2)
    (hp : p.truthy = true) :
    fuse_with_attention none (some p) w = .ok p.toFused := by
  simp [fuse_with_attention, getTruthyPred, hp]

/-- Symbolic characterization of the normal (no safety override) path of
`fuse_predictions`: when the selected fusion method succeeds with inner
results `fr`, the output is assembled from `fr` and the risk assessment on
`fr`'s fused predictions. -/
theorem fuse_predictions_eq (eeg : Option EEGResults) (text : Option TextResults)
    (cal : Option (List (String × ℚ))) (m : String)
    (h : apply_safety_rules eeg text = none) (em ax : FusedPred) (imp : Importance)
    (hm : (if m = "attention" then attention_fusion eeg text cal
           else if m = "bayesian" then bayesian_fusion eeg text
           else ensemble_fusion eeg text) = .ok ⟨em, ax, imp⟩) :
    fuse_predictions eeg text cal m = .ok
      { risk_level := (assess_risk_level_advanced em ax text).level
        confidence := (assess_risk_level_advanced em ax text).confidence
        safety_override := false
        emotion_fusion := some em
        anxiety_fusion := some ax
        explanation := generate_explanation ⟨em, ax, imp⟩
          (assess_risk_level_advanced em ax text)
        feature_importance := imp
        fusion_method := some m
        safety_flags :=
          (match getTruthyText text with
           | some tr => tr.safety_flags
           | none => none)
        recommendations_priority :=
          some (get_recommendation_priority
            (assess_risk_level_advanced em ax text).level)
        emergency_resources := false } := by
  unfold fuse_predictions
  rw [h, hm]
  rfl

/-! ## Claim C1: crisis indicators force the safety override -/

/-- C1: for every call where the text predictions carry
`safety_flags.has_crisis_indicators = true`, `fuse_predictions` returns the
fixed crisis override (`risk_level = "high"`, `confidence = 0.95`,
`safety_override = true`) for every EEG input, fusion mode and user
calibration.  The safety check is the first statement of the `try` block, so
the override is decided before any fused-probability arithmetic runs: the
result does not depend on `eeg`, `cal` or `fusion_method` at all. -/
theorem fuse_crisis_override (eeg : Option EEGResults) (text : TextResults)
    (cal : Option (List (String × ℚ))) (fusion_method : String)
    (sf : SafetyFlags) (hsf : text.safety_flags = some sf)
    (hc : sf.has_crisis_indicators = true) :
    fuse_predictions eeg (some text) cal fusion_method = .ok
      { risk_level := "high"
        confidence := 19/20
        safety_override := true
        emotion_fusion := none
        anxiety_fusion := none
        explanation := ["Crisis indicators detected in text input",
                        "Immediate professional help recommended",
                        "Safety is the top priority"]
        feature_importance := .empty
        fusion_method := none
        safety_flags := none
        recommendations_priority := none
        emergency_resources := true } := by
  have htr : text.truthy = true := by
    simp [TextResults.truthy, hsf]
  have hcr : textCrisis (some text) = true := by
    simp [textCrisis, htr, hsf, hc]
  simp [fuse_predictions, apply_safety_rules, hcr]

/-- C1 witness: a text dict containing only crisis flags, with no EEG data,
in attention mode. -/
theorem fuse_crisis_override_witness :
    fuse_predictions none (some ⟨none, none, none, some ⟨true⟩⟩) none "attention" = .ok
      { risk_level := "high"
        confidence := 19/20
        safety_override := true
        emotion_fusion := none
        anxiety_fusion := none
        explanation := ["Crisis indicators detected in text input",
                        "Immediate professional help recommended",
                        "Safety is the top priority"]
        feature_importance := .empty
        fusion_method := none
        safety_flags := none
        recommendations_priority := none
        emergency_resources := true } :=
  fuse_crisis_override none ⟨none, none, none, some ⟨true⟩⟩ none "attention"
    ⟨true⟩ rfl rfl

/-! ## Claim C2: severe depression forces the safety override -/

/-- C2: without crisis indicators, a text depression prediction with label
`"severe"` and confidence above 0.7 makes `fuse_predictions` return the
fixed severe-depression override (`risk_level = "high"`, `confidence = 0.9`,
`safety_override = true`) for every EEG input, fusion mode and calibration. -/
theorem fuse_severe_depression_override (eeg : Option EEGResults)
    (text : TextResults) (cal : Option (List (String × ℚ)))
    (fusion_method : String)
    (hnc : textCrisis (some text) = false)
    (d : Pred) (hd : text.depression = some d)
    (hlabel : d.label = some "severe")
    (hconf : (7:ℚ)/10 < d.confidence.getD 0) :
    fuse_predictions eeg (some text) cal fusion_method = .ok
      { risk_level := "high"
        confidence := 9/10
        safety_override := true
        emotion_fusion := none
        anxiety_fusion := none
        explanation := ["Severe depression indicators in text analysis",
                        "Professional evaluation recommended within 24-48 hours",
                        "This assessment is for guidance only, not diagnosis"]
        feature_importance := .empty
        fusion_method := none
        safety_flags := none
        recommendations_priority := none
        emergency_resources := false } := by
  have htr : text.truthy = true := by
    simp [TextResults.truthy, hd]
  have hsev : textSevereDepression (some text) = true := by
    simp [textSevereDepression, htr, hd, hlabel, hconf]
  simp [fuse_predictions, apply_safety_rules, hnc, hsev]

/-- C2 witness: a text dict whose only content is a severe depression
prediction at confidence 0.8. -/
theorem fuse_severe_depression_override_witness :
    fuse_predictions none
      (some ⟨none, some ⟨some "severe", some (4/5), none⟩, none, none⟩)
      none "bayesian" = .ok
      { risk_level := "high"
        confidence := 9/10
        safety_override := true
        emotion_fusion := none
        anxiety_fusion := none
        explanation := ["Severe depression indicators in text analysis",
                        "Professional evaluation recommended within 24-48 hours",
                        "This assessment is for guidance only, not diagnosis"]
        feature_importance := .empty
        fusion_method := none
        safety_flags := none
        recommendations_priority := none
        emergency_resources := false } :=
  fuse_severe_depression_override none
    ⟨none, some ⟨some "severe", some (4/5), none⟩, none, none⟩ none "bayesian"
    (by decide) ⟨some "severe", some (4/5), none⟩ rfl rfl (by decide)

/-! ## Claim C3: behaviour when both inputs are `None` -/

/-- C3 counterexample.  The claim says `fuse` fails with `NoInputError`
whenever both inputs are `None`, for every fusion mode, instead of
fabricating a default result.  In fact no `NoInputError` exists anywhere in
the repository and in attention mode the call succeeds, returning a
fabricated default result built from the hard-coded
`{'label': 'neutral', 'confidence': 0.3}` fallback of
`_fuse_with_attention`. -/
theorem fuse_both_none_attention_default :
    fuse_predictions none none none "attention" = .ok
      { risk_level := "stable"
        confidence := 7/10
        safety_override := false
        emotion_fusion := some ⟨some "neutral", some (3/10), none, none, none, none⟩
        anxiety_fusion := some ⟨some "neutral", some (3/10), none, none, none, none⟩
        explanation := ["Combined analysis indicates neutral emotional state with 30% confidence",
                        "Anxiety level assessed as neutral with 30% confidence",
                        "Overall risk assessment: stable (score: 0/2.0)",
                        "Analysis used attention fusion method for optimal accuracy"]
        feature_importance := .attention ⟨⟨7/10, 3/10⟩, ⟨4/5, 1/5⟩⟩
        fusion_method := some "attention"
        safety_flags := none
        recommendations_priority := some "maintenance"
        emergency_resources := false } := by
  decide

/-- C3 (amended): when both `eeg_predictions` and `text_predictions` are
`None`, `fuse_predictions` does not fail in attention mode (no
`NoInputError` exists in the code); for every user calibration it returns a
fabricated default result with `risk_level = "stable"`, no safety override,
and `{label: neutral, confidence: 0.3}` as both fused predictions.
(In ensemble mode the same call instead fails with a wrapped `ValueError`;
see the C10 witness.) -/
theorem fuse_both_none_returns_default (cal : Option (List (String × ℚ))) :
    ∃ r, fuse_predictions none none cal "attention" = .ok r ∧
      r.risk_level = "stable" ∧
      r.safety_override = false ∧
      r.emotion_fusion = some ⟨some "neutral", some (3/10), none, none, none, none⟩ ∧
      r.anxiety_fusion = some ⟨some "neutral", some (3/10), none, none, none, none⟩ := by
  have hatt : attention_fusion none none cal = .ok
      ⟨⟨some "neutral", some (3/10), none, none, none, none⟩,
       ⟨some "neutral", some (3/10), none, none, none, none⟩,
       .attention (get_attention_weights none none cal)⟩ := rfl
  refine ⟨_, fuse_predictions_eq none none cal "attention" rfl _ _ _
    (by rw [if_pos rfl]; exact hatt), ?_, ?_, ?_, ?_⟩
  · rfl
  · rfl
  · rfl
  · rfl

/-! ## Claim C10: every internal failure is re-raised as a wrapped ValueError -/

/-- C10: whatever `fuse_predictions` does internally, an error escaping it
always carries the `"Advanced prediction fusion failed: "` prefix — the
whole body after the safety check runs inside
`try: ... except Exception as e: raise ValueError(f"Advanced prediction
fusion failed: {str(e)}")`, and the safety-rule evaluation itself cannot
raise. -/
theorem fuse_errors_are_wrapped (eeg : Option EEGResults)
    (text : Option TextResults) (cal : Option (List (String × ℚ)))
    (fusion_method : String) (msg : String)
    (h : fuse_predictions eeg text cal fusion_method = .error msg) :
    ∃ inner, msg = "Advanced prediction fusion failed: " ++ inner := by
  rw [fuse_predictions] at h
  cases happly : apply_safety_rules eeg text with
  | some o => rw [happly] at h; exact absurd h (by simp)
  | none =>
    rw [happly] at h
    generalize (if fusion_method = "attention" then attention_fusion eeg text cal
                else if fusion_method = "bayesian" then bayesian_fusion eeg text
                else ensemble_fusion eeg text) = b at h
    cases b with
    | ok fr => exact absurd h (by simp [Except.bind, Except.mapError])
    | error e =>
      have h2 : "Advanced prediction fusion failed: " ++ e = msg := by
        simpa [Except.bind, Except.mapError] using h
      exact ⟨e, h2.symm⟩

/-- C10 witness: with both inputs `None` in ensemble mode, the numpy
broadcast failure inside `_ensemble_predictions` surfaces as a wrapped
error message. -/
theorem fuse_errors_are_wrapped_witness :
    ∃ inner, "Advanced prediction fusion failed: operands could not be broadcast together" =
      "Advanced prediction fusion failed: " ++ inner :=
  fuse_errors_are_wrapped none none none "ensemble"
    "Advanced prediction fusion failed: operands could not be broadcast together"
    (by decide)

/-! ## Claim C4: attention weights -/

/-- Concrete EEG results for the C4 theorems: both targets at confidence
0.7 and 0.8 respectively. -/
def c4er : EEGResults :=
  ⟨some ⟨some "happy", some (4/5), none⟩, some ⟨some "low", some (7/10), none⟩⟩

/-- Concrete text results for the C4 theorems: sentiment score 0.6. -/
def c4tr : TextResults :=
  ⟨some ⟨some "positive", some (3/5)⟩, none, some ⟨some "low"⟩, some ⟨false⟩⟩

/-- A truthy prediction and a weight pair for the single-source clause of
the C4 theorems. -/
def c4p : Pred := ⟨some "happy", some (3/5), none⟩

/-- Weight pair used in the C4 witness. -/
def c4w : Weights2 := ⟨9/10, 1/10⟩

/-- C4 counterexample.  The claim says that for EACH target the weights are
the target's own confidences normalized (`w_eeg = conf_eeg/(conf_eeg +
conf_text)`).  For the anxiety target this is false: with both sources
present, the EEG anxiety confidence 0.7 and the text anxiety confidence 0.7
(the constant confidence `_text_to_anxiety` assigns), the claim demands
`w_eeg = 0.7/(0.7+0.7) = 1/2`, but `_get_attention_weights` only
confidence-normalizes the EMOTION weights and leaves the anxiety weights at
their base values 0.8/0.2. -/
theorem attention_anxiety_weights_not_normalized :
    (get_attention_weights
      (some ⟨some ⟨some "happy", some (7/10), none⟩,
             some ⟨some "low", some (7/10), none⟩⟩)
      (some ⟨some ⟨some "neutral", some (7/10)⟩, none, some ⟨some "low"⟩,
             some ⟨false⟩⟩)
      none).anxiety = ⟨4/5, 1/5⟩ ∧
    (Option.bind
      (text_to_anxiety (some ⟨some ⟨some "neutral", some (7/10)⟩, none,
        some ⟨some "low"⟩, some ⟨false⟩⟩))
      (fun p => p.confidence)) = some (7/10) ∧
    ¬((4:ℚ)/5 = (7/10) / ((7:ℚ)/10 + 7/10)) := by
  decide

/-- C4 (amended): in attention mode without user calibration and with both
sources truthy, only the EMOTION weights are confidence-normalized —
`w_eeg = conf_eeg_emotion / (conf_eeg_emotion + sentiment_score)` and
`w_text = 1 - w_eeg` — while the anxiety weights stay at the base values
0.8/0.2 regardless of any confidence; when only one source is present its
prediction is passed through unchanged (its weight is effectively 1). -/
theorem attention_weights_formula (er : EEGResults) (tr : TextResults)
    (h1 : er.truthy = true) (h2 : tr.truthy = true)
    (htot : 0 < eegEmotionConf er + textSentimentScore tr) :
    (get_attention_weights (some er) (some tr) none).emotion.eeg
        = eegEmotionConf er / (eegEmotionConf er + textSentimentScore tr) ∧
    (get_attention_weights (some er) (some tr) none).emotion.text
        = 1 - (get_attention_weights (some er) (some tr) none).emotion.eeg ∧
    (get_attention_weights (some er) (some tr) none).anxiety = ⟨4/5, 1/5⟩ ∧
    (∀ (p : Pred) (w : Weights2), p.truthy = true →
      fuse_with_attention (some p) none w = .ok p.toFused ∧
      fuse_with_attention none (some p) w = .ok p.toFused) := by
  have hw : get_attention_weights (some er) (some tr) none =
      ⟨⟨eegEmotionConf er / (eegEmotionConf er + textSentimentScore tr),
        textSentimentScore tr / (eegEmotionConf er + textSentimentScore tr)⟩,
       ⟨4/5, 1/5⟩⟩ := by
    simp [get_attention_weights, h1, h2, htot]
  have hne : eegEmotionConf er + textSentimentScore tr ≠ 0 := ne_of_gt htot
  refine ⟨by rw [hw], ?_, by rw [hw], ?_⟩
  · rw [hw]
    show textSentimentScore tr / _ = 1 - eegEmotionConf er / _
    rw [eq_sub_iff_add_eq, div_add_div_same, add_comm, div_self hne]
  · intro p w hp
    exact ⟨fuse_with_attention_eeg_only p w hp, fuse_with_attention_text_only p w hp⟩

/-- C4 amended witness: confidences 0.8 (EEG emotion) and 0.6 (sentiment)
give emotion weights 4/7 and 3/7 while the anxiety weights stay 0.8/0.2;
a lone truthy prediction passes through for an arbitrary weight pair. -/
theorem attention_weights_formula_witness :
    (get_attention_weights (some c4er) (some c4tr) none).emotion.eeg
        = eegEmotionConf c4er / (eegEmotionConf c4er + textSentimentScore c4tr) ∧
    (get_attention_weights (some c4er) (some c4tr) none).emotion.text
        = 1 - (get_attention_weights (some c4er) (some c4tr) none).emotion.eeg ∧
    (get_attention_weights (some c4er) (some c4tr) none).anxiety = ⟨4/5, 1/5⟩ ∧
    (fuse_with_attention (some c4p) none c4w = .ok c4p.toFused ∧
     fuse_with_attention none (some c4p) c4w = .ok c4p.toFused) := by
  have H := attention_weights_formula c4er c4tr (by decide) (by decide) (by decide)
  exact ⟨H.1, H.2.1, H.2.2.1, H.2.2.2 c4p c4w (by decide)⟩

/-! ## Claim C9: no validation of probability sums -/

/-- C9 counterexample.  The claim says `fuse` fails with
`InvalidPredictionError` whenever a supplied prediction's probabilities do
not sum to ~1.  No such validation (or error class) exists: an EEG emotion
prediction whose probabilities sum to 2 is accepted and passed through
unchanged into the fused result. -/
theorem fuse_accepts_unnormalized_probabilities :
    (vals [("happy", (1:ℚ)), ("sad", 1)]).sum ≠ 1 ∧
    fuse_predictions
      (some ⟨some ⟨some "happy", some (9/10), some [("happy", 1), ("sad", 1)]⟩,
             some ⟨some "low", some (1/2), some [("low", 1)]⟩⟩)
      none none "attention" = .ok
      { risk_level := "stable"
        confidence := 7/10
        safety_override := false
        emotion_fusion := some ⟨some "happy", some (9/10),
          some [("happy", 1), ("sad", 1)], none, none, none⟩
        anxiety_fusion := some ⟨some "low", some (1/2),
          some [("low", 1)], none, none, none⟩
        explanation := ["Combined analysis indicates happy emotional state with 90% confidence",
                        "Anxiety level assessed as low with 50% confidence",
                        "Overall risk assessment: stable (score: 0/2.0)",
                        "Analysis used attention fusion method for optimal accuracy"]
        feature_importance := .attention ⟨⟨7/10, 3/10⟩, ⟨4/5, 1/5⟩⟩
        fusion_method := some "attention"
        safety_flags := none
        recommendations_priority := some "maintenance"
        emergency_resources := false } := by
  decide

/-- C9 (amended): `fuse_predictions` performs no validation of probability
sums.  For EEG-only input in attention mode, even when the emotion
probabilities sum to anything other than 1, the call succeeds and the
malformed predictions are passed through unchanged (no renormalization, no
`InvalidPredictionError`). -/
theorem fuse_no_probability_validation (em ax : Pred)
    (cal : Option (List (String × ℚ)))
    (hem : em.truthy = true) (hax : ax.truthy = true)
    (hsum : (vals (em.probabilities.getD [])).sum ≠ 1) :
    ∃ r, fuse_predictions (some ⟨some em, some ax⟩) none cal "attention" = .ok r ∧
      r.emotion_fusion = some em.toFused ∧
      r.anxiety_fusion = some ax.toFused := by
  have hatt : attention_fusion (some ⟨some em, some ax⟩) none cal =
      .ok ⟨em.toFused, ax.toFused,
           .attention (get_attention_weights (some ⟨some em, some ax⟩) none cal)⟩ := by
    unfold attention_fusion
    rw [show eegEmotionPred (some ⟨some em, some ax⟩) = some em from rfl,
        show eegAnxietyPred (some ⟨some em, some ax⟩) = some ax from rfl]
    dsimp only [getTruthyText]
    rw [fuse_with_attention_eeg_only em _ hem,
        fuse_with_attention_eeg_only ax _ hax]
    rfl
  refine ⟨_, fuse_predictions_eq (some ⟨some em, some ax⟩) none cal "attention"
    rfl _ _ _ (by rw [if_pos rfl]; exact hatt), rfl, rfl⟩

/-- C9 amended witness: emotion probabilities summing to 2 are accepted and
returned unchanged. -/
theorem fuse_no_probability_validation_witness :
    ∃ r, fuse_predictions
        (some ⟨some ⟨some "happy", some (9/10), some [("happy", 3/2), ("sad", 1/2)]⟩,
               some ⟨some "low", some (1/2), some [("low", 1)]⟩⟩)
        none none "attention" = .ok r ∧
      r.emotion_fusion = some (Pred.toFused
        ⟨some "happy", some (9/10), some [("happy", 3/2), ("sad", 1/2)]⟩) ∧
      r.anxiety_fusion = some (Pred.toFused
        ⟨some "low", some (1/2), some [("low", 1)]⟩) :=
  fuse_no_probability_validation
    ⟨some "happy", some (9/10), some [("happy", 3/2), ("sad", 1/2)]⟩
    ⟨some "low", some (1/2), some [("low", 1)]⟩ none
    (by decide) (by decide) (by decide)

/-! ## Claim C6: the risk-level formula -/

/-- Modelled from the claim (spec §4.4 step 3), as the comparison point for
the refinement claim C6: map the fused emotion label to a severity (sad or
stressed → 2, neutral → 1, else 0), anxiety low/moderate/high → 0/1/2, and,
when text is present, depression not_depressed/moderate/severe → 0/1/2; take
the weighted average with weights 0.3/0.4/0.3 renormalized over whichever of
the three are present. -/
def spec_risk_score_c6 (emotionLabel anxietyLabel : String)
    (depressionLabel : Option String) : ℚ :=
  let e : ℚ :=
    if emotionLabel = "sad" ∨ emotionLabel = "stressed" then 2
    else if emotionLabel = "neutral" then 1 else 0
  let a : ℚ :=
    if anxietyLabel = "low" then 0 else if anxietyLabel = "moderate" then 1
    else if anxietyLabel = "high" then 2 else 0
  match depressionLabel with
  | some dl =>
    let d : ℚ :=
      if dl = "not_depressed" then 0 else if dl = "moderate" then 1
      else if dl = "severe" then 2 else 0
    (3/10 * e + 2/5 * a + 3/10 * d) / (3/10 + 2/5 + 3/10)
  | none => (3/10 * e + 2/5 * a) / (3/10 + 2/5)

/-- Modelled from the claim: the spec's fixed thresholds
`≥1.5→high, ≥1.0→moderate, ≥0.5→mild, else stable`. -/
def spec_risk_level_c6 (s : ℚ) : String :=
  if 3/2 ≤ s then "high" else if 1 ≤ s then "moderate"
  else if 1/2 ≤ s then "mild" else "stable"

/-- C6 counterexample.  EEG-only input whose fused emotion label is
`neutral` (confidence 0.9) and fused anxiety label is `high`.  The claim's
formula gives severities 1 (neutral) and 2 (high), renormalized weights
0.3/0.7 and 0.4/0.7, so risk_score = 11/7 ≈ 1.57 and risk_level "high".
The code instead appends NO factor for a neutral emotion, zips the weight
list [0.3, 0.4, 0.3] positionally against the single-element factor list
[2] — so the anxiety factor receives the EMOTION weight 0.3 — and divides
by the full weight sum 1, giving risk_score 0.6 and risk_level "mild". -/
theorem risk_level_skips_neutral_emotion :
    fuse_predictions
      (some ⟨some ⟨some "neutral", some (9/10), some [("neutral", 1)]⟩,
             some ⟨some "high", some (9/10), some [("high", 1)]⟩⟩)
      none none "attention" = .ok
      { risk_level := "mild"
        confidence := 13/20
        safety_override := false
        emotion_fusion := some ⟨some "neutral", some (9/10),
          some [("neutral", 1)], none, none, none⟩
        anxiety_fusion := some ⟨some "high", some (9/10),
          some [("high", 1)], none, none, none⟩
        explanation := ["Combined analysis indicates neutral emotional state with 90% confidence",
                        "Anxiety level assessed as high with 90% confidence",
                        "Overall risk assessment: mild (score: 60/2.0)",
                        "Analysis used attention fusion method for optimal accuracy"]
        feature_importance := .attention ⟨⟨7/10, 3/10⟩, ⟨4/5, 1/5⟩⟩
        fusion_method := some "attention"
        safety_flags := none
        recommendations_priority := some "prevention"
        emergency_resources := false } ∧
    spec_risk_level_c6 (spec_risk_score_c6 "neutral" "high" none) = "high" ∧
    ("mild" : String) ≠ "high" := by
  decide

/-- C6 (amended): for every fuse call that returns without a safety
override, the returned risk_level (and confidence) equal the result of the
code's positional formula on the returned fused predictions: build the
factor list — emotion factor only when the fused label is sad/stressed
(2 when its confidence exceeds 0.7, else 1), anxiety factor always
(low/moderate/high → 0/1/2, default 0), depression factor when text is
truthy — zip it positionally with the weights [0.3, 0.4, 0.3], divide by
the full weight sum 1 (no renormalization over the present subset), and
threshold at 1.5/1.0/0.5. -/
theorem risk_level_positional_formula (eeg : Option EEGResults)
    (text : Option TextResults) (cal : Option (List (String × ℚ)))
    (m : String) (r : FusionOutput)
    (hr : fuse_predictions eeg text cal m = .ok r)
    (hsafe : apply_safety_rules eeg text = none) :
    ∀ ef af, r.emotion_fusion = some ef → r.anxiety_fusion = some af →
      r.risk_level = riskLevelOfScore (risk_score_of ef af text) ∧
      r.confidence = riskConfidenceOfScore (risk_score_of ef af text) := by
  rw [fuse_predictions, hsafe] at hr
  generalize hF : (if m = "attention" then attention_fusion eeg text cal
                   else if m = "bayesian" then bayesian_fusion eeg text
                   else ensemble_fusion eeg text) = F at hr
  cases F with
  | error e => exact absurd hr (by simp [Except.bind, Except.mapError])
  | ok fr =>
    obtain ⟨em, ax, imp⟩ := fr
    have hrec : r =
        { risk_level := (assess_risk_level_advanced em ax text).level
          confidence := (assess_risk_level_advanced em ax text).confidence
          safety_override := false
          emotion_fusion := some em
          anxiety_fusion := some ax
          explanation := generate_explanation ⟨em, ax, imp⟩
            (assess_risk_level_advanced em ax text)
          feature_importance := imp
          fusion_method := some m
          safety_flags :=
            (match getTruthyText text with
             | some tr => tr.safety_flags
             | none => none)
          recommendations_priority :=
            some (get_recommendation_priority
              (assess_risk_level_advanced em ax text).level)
          emergency_resources := false } := by
      have h2 := hr.symm
      simpa [Except.bind, Except.mapError] using h2
    subst hrec
    intro ef af hef haf
    obtain rfl : em = ef := by simpa using hef
    obtain rfl : ax = af := by simpa using haf
    exact ⟨rfl, rfl⟩

/-- The full output of the C6 witness call (EEG-only, fused labels sad at
confidence 0.8 and moderate): factor list [2, 1], positional weighted sum
0.3·2 + 0.4·1 = 1, risk level "moderate". -/
def c6wOut : FusionOutput :=
  { risk_level := "moderate"
    confidence := 3/4
    safety_override := false
    emotion_fusion := some ⟨some "sad", some (4/5),
      some [("sad", 1)], none, none, none⟩
    anxiety_fusion := some ⟨some "moderate", some (3/5),
      some [("moderate", 1)], none, none, none⟩
    explanation := ["Combined analysis indicates sad emotional state with 80% confidence",
                    "Anxiety level assessed as moderate with 60% confidence",
                    "Overall risk assessment: moderate (score: 100/2.0)",
                    "Analysis used attention fusion method for optimal accuracy"]
    feature_importance := .attention ⟨⟨7/10, 3/10⟩, ⟨4/5, 1/5⟩⟩
    fusion_method := some "attention"
    safety_flags := none
    recommendations_priority := some "intervention"
    emergency_resources := false }

/-- C6 amended witness: the returned risk level and confidence agree with
the positional formula applied to the returned fused predictions. -/
theorem risk_level_positional_formula_witness :
    fuse_predictions
      (some ⟨some ⟨some "sad", some (4/5), some [("sad", 1)]⟩,
             some ⟨some "moderate", some (3/5), some [("moderate", 1)]⟩⟩)
      none none "attention" = .ok c6wOut ∧
    c6wOut.risk_level = riskLevelOfScore (risk_score_of
      ⟨some "sad", some (4/5), some [("sad", 1)], none, none, none⟩
      ⟨some "moderate", some (3/5), some [("moderate", 1)], none, none, none⟩
      none) ∧
    c6wOut.confidence = riskConfidenceOfScore (risk_score_of
      ⟨some "sad", some (4/5), some [("sad", 1)], none, none, none⟩
      ⟨some "moderate", some (3/5), some [("moderate", 1)], none, none, none⟩
      none) := by
  have H := risk_level_positional_formula
    (some ⟨some ⟨some "sad", some (4/5), some [("sad", 1)]⟩,
           some ⟨some "moderate", some (3/5), some [("moderate", 1)]⟩⟩)
    none none "attention" c6wOut (by decide) (by decide)
    ⟨some "sad", some (4/5), some [("sad", 1)], none, none, none⟩
    ⟨some "moderate", some (3/5), some [("moderate", 1)], none, none, none⟩
    (by decide) (by decide)
  exact ⟨by decide, H.1, H.2⟩

/-! ## Claim C5: normalization of returned probability tables -/

/-- C5 counterexample.  A text-only attention-mode call (positive sentiment,
no crisis): the returned emotion probability table is the hard-coded
`_text_to_emotion` table `{happy: 0.8, sad: 0.1, neutral: 0.1,
stressed: 0.1, relaxed: 0.1}`, whose values sum to 1.2 — outside the claimed
1 ± 1e-6 — and it is returned unchanged as `emotion_fusion` of a non-override
result. -/
theorem attention_text_probabilities_sum_above_one :
    fuse_predictions none
      (some ⟨some ⟨some "positive", some (4/5)⟩, none, none, some ⟨false⟩⟩)
      none "attention" = .ok
      { risk_level := "stable"
        confidence := 7/10
        safety_override := false
        emotion_fusion := some ⟨some "happy", some (4/5),
          some [("happy", 4/5), ("sad", 1/10), ("neutral", 1/10),
                ("stressed", 1/10), ("relaxed", 1/10)], none, none, none⟩
        anxiety_fusion := some ⟨some "low", some (7/10),
          some [("low", 4/5), ("moderate", 1/10), ("high", 1/10)],
          none, none, none⟩
        explanation := ["Combined analysis indicates happy emotional state with 80% confidence",
                        "Anxiety level assessed as low with 70% confidence",
                        "Overall risk assessment: stable (score: 0/2.0)",
                        "Analysis used attention fusion method for optimal accuracy"]
        feature_importance := .attention ⟨⟨7/10, 3/10⟩, ⟨4/5, 1/5⟩⟩
        fusion_method := some "attention"
        safety_flags := some ⟨false⟩
        recommendations_priority := some "maintenance"
        emergency_resources := false } ∧
    (vals [("happy", (4:ℚ)/5), ("sad", 1/10), ("neutral", 1/10),
           ("stressed", 1/10), ("relaxed", 1/10)]).sum = 6/5 ∧
    ¬((6:ℚ)/5 - 1 ≤ 1/1000000) := by
  decide

/-- The running index of `argmaxGo` bounds its result. -/
theorem argmaxGo_lt : ∀ (l : List ℚ) (i bi : ℕ) (bv : ℚ), bi < i →
    argmaxGo l i bi bv < i + l.length := by
  intro l
  induction l with
  | nil => intro i bi bv h; simpa [argmaxGo] using h
  | cons x xs ih =>
    intro i bi bv h
    simp only [argmaxGo, List.length_cons]
    split
    · have h2 := ih (i + 1) i x (Nat.lt_succ_self i)
      omega
    · have h2 := ih (i + 1) bi bv (by omega)
      omega

/-- `np.argmax` returns an index inside the array. -/
theorem npArgmax_lt (l : List ℚ) (k : ℕ) (h : npArgmax l = .ok k) :
    k < l.length := by
  cases l with
  | nil => simp [npArgmax] at h
  | cons x xs =>
    simp only [npArgmax, Except.ok.injEq] at h
    subst h
    have h2 := argmaxGo_lt xs 1 0 x (by omega)
    simp only [List.length_cons]
    omega

/-- A `.get(k, default)` over a table of positive values with a positive
default is positive. -/
theorem lookupD_pos (m : List (String × ℚ)) (k : String) (d : ℚ)
    (hm : ∀ kv ∈ m, 0 < kv.2) (hd : 0 < d) : 0 < lookupD m k d := by
  unfold lookupD
  cases hf : m.find? (fun kv => kv.1 == k) with
  | none => exact hd
  | some kv => exact hm kv (List.mem_of_find?_eq_some hf)

/-- Distributing a division over a list sum. -/
theorem sum_map_div (l : List ℚ) (c : ℚ) :
    (l.map (fun x => x / c)).sum = l.sum / c := by
  induction l with
  | nil => simp
  | cons x xs ih => simp [ih, add_div]

/-- Elementwise products of positive lists are positive. -/
theorem zipWith_mul_pos : ∀ (a b : List ℚ), (∀ x ∈ a, 0 < x) →
    (∀ x ∈ b, 0 < x) →
    ∀ x ∈ List.zipWith (fun p q => p * q) a b, 0 < x := by
  intro a
  induction a with
  | nil => intro b _ _ x hx; simp at hx
  | cons y ys ih =>
    intro b ha hb x hx
    cases b with
    | nil => simp at hx
    | cons z zs =>
      simp only [List.zipWith, List.mem_cons] at hx
      rcases hx with rfl | hx
      · exact mul_pos (ha y (by simp)) (hb z (by simp))
      · exact ih zs (fun u hu => ha u (by simp [hu]))
          (fun u hu => hb u (by simp [hu])) x hx

/-- `list(dict(zip(ks, vs)).values()) = vs` when the lengths agree. -/
theorem vals_zip : ∀ (a : List String) (b : List ℚ), a.length = b.length →
    vals (a.zip b) = b := by
  intro a
  induction a with
  | nil =>
    intro b h
    cases b with
    | nil => rfl
    | cons y ys => simp at h
  | cons x xs ih =>
    intro b h
    cases b with
    | nil => simp at h
    | cons y ys =>
      have h2 : xs.length = ys.length := by simpa using h
      simp only [List.zip_cons_cons, vals, List.map_cons]
      exact congrArg (y :: ·) (ih ys h2)

/-- A truthiness-filtered prediction was present. -/
theorem getTruthyPred_eq_some (x : Option Pred) (p : Pred)
    (h : getTruthyPred x = some p) : x = some p := by
  cases x with
  | none => simp [getTruthyPred] at h
  | some q =>
    simp only [getTruthyPred] at h
    split at h
    · exact h
    · simp at h

/-- All probability values `_text_to_emotion` emits are positive. -/
theorem text_to_emotion_pos (t : Option TextResults) (p : Pred)
    (h : text_to_emotion t = some p) :
    ∀ kv ∈ p.probabilities.getD [], 0 < kv.2 := by
  unfold text_to_emotion at h
  cases htt : getTruthyText t with
  | none => rw [htt] at h; simp at h
  | some tr =>
    rw [htt] at h
    simp only [Option.some.injEq] at h
    subst h
    intro kv hkv
    simp only [Option.getD_some] at hkv
    simp only [List.mem_cons, List.not_mem_nil, or_false] at hkv
    rcases hkv with rfl | rfl | rfl | rfl | rfl <;>
      first
        | (split_ifs <;> norm_num)
        | norm_num

/-- All probability values `_text_to_anxiety` emits are positive. -/
theorem text_to_anxiety_pos (t : Option TextResults) (p : Pred)
    (h : text_to_anxiety t = some p) :
    ∀ kv ∈ p.probabilities.getD [], 0 < kv.2 := by
  unfold text_to_anxiety at h
  cases htt : getTruthyText t with
  | none => rw [htt] at h; simp at h
  | some tr =>
    rw [htt] at h
    simp only [Option.some.injEq] at h
    subst h
    intro kv hkv
    simp only [Option.getD_some] at hkv
    simp only [List.mem_cons, List.not_mem_nil, or_false] at hkv
    rcases hkv with rfl | rfl | rfl <;> split_ifs <;> norm_num

/-- The unnormalized posterior has one entry per prior class. -/
theorem bayesianUnnormalized_length (e t : Option Pred)
    (pr : List (String × ℚ)) :
    (bayesianUnnormalized e t pr).length = pr.length := by
  unfold bayesianUnnormalized
  cases getTruthyPred e <;> cases getTruthyPred t <;>
    simp [vals, keys, List.length_zipWith]

/-- With positive prior values and positive supplied probabilities, every
unnormalized posterior entry is positive (the missing-class default
`1/len(classes)` is positive as well). -/
theorem bayesianUnnormalized_pos (e t : Option Pred)
    (pr : List (String × ℚ)) (hne : pr ≠ [])
    (hpr : ∀ kv ∈ pr, 0 < kv.2)
    (he : ∀ p, getTruthyPred e = some p →
      ∀ kv ∈ p.probabilities.getD [], 0 < kv.2)
    (ht : ∀ p, getTruthyPred t = some p →
      ∀ kv ∈ p.probabilities.getD [], 0 < kv.2) :
    ∀ x ∈ bayesianUnnormalized e t pr, 0 < x := by
  have hvals : ∀ x ∈ vals pr, 0 < x := by
    intro x hx
    simp only [vals, List.mem_map] at hx
    obtain ⟨kv, hkv, rfl⟩ := hx
    exact hpr kv hkv
  have hdefault : 0 < 1 / (((keys pr).length : ℚ)) := by
    have hlen : 0 < (keys pr).length := by
      simpa [keys] using List.length_pos.mpr hne
    exact one_div_pos.mpr (by exact_mod_cast hlen)
  have hlik : ∀ (p : Pred), (∀ kv ∈ p.probabilities.getD [], 0 < kv.2) →
      ∀ x ∈ (keys pr).map (fun c =>
        lookupD (p.probabilities.getD []) c (1 / ((keys pr).length : ℚ))),
        0 < x := by
    intro p hp x hx
    simp only [List.mem_map] at hx
    obtain ⟨c, _, rfl⟩ := hx
    exact lookupD_pos _ _ _ hp hdefault
  unfold bayesianUnnormalized
  cases hge : getTruthyPred e with
  | none =>
    cases hgt : getTruthyPred t with
    | none => exact hvals
    | some p => exact zipWith_mul_pos _ _ hvals (hlik p (ht p hgt))
  | some p =>
    cases hgt : getTruthyPred t with
    | none => exact zipWith_mul_pos _ _ hvals (hlik p (he p hge))
    | some q =>
      exact zipWith_mul_pos _ _
        (zipWith_mul_pos _ _ hvals (hlik p (he p hge)))
        (hlik q (ht q hgt))

/-- `_bayesian_update` with a nonempty all-positive prior and positive
supplied probabilities succeeds, and its output probability table sums to
exactly 1 with every value in [0, 1]. -/
theorem bayesian_update_ok (e t : Option Pred) (pr : List (String × ℚ))
    (hne : pr ≠ []) (hpr : ∀ kv ∈ pr, 0 < kv.2)
    (he : ∀ p, getTruthyPred e = some p →
      ∀ kv ∈ p.probabilities.getD [], 0 < kv.2)
    (ht : ∀ p, getTruthyPred t = some p →
      ∀ kv ∈ p.probabilities.getD [], 0 < kv.2) :
    ∃ q, bayesian_update e t pr = .ok q ∧
      (vals (q.probabilities.getD [])).sum = 1 ∧
      (∀ v ∈ vals (q.probabilities.getD []), 0 ≤ v ∧ v ≤ 1) := by
  have hulen := bayesianUnnormalized_length e t pr
  have hupos := bayesianUnnormalized_pos e t pr hne hpr he ht
  have huneq : bayesianUnnormalized e t pr ≠ [] := by
    intro hc
    have h0 : pr.length = 0 := by rw [← hulen, hc]; rfl
    exact hne (List.length_eq_zero.mp h0)
  have husum : 0 < (bayesianUnnormalized e t pr).sum :=
    List.sum_pos _ hupos huneq
  have hpostdef : bayesianPosterior e t pr =
      (bayesianUnnormalized e t pr).map
        (fun p => p / (bayesianUnnormalized e t pr).sum) := rfl
  have hpostlen : (bayesianPosterior e t pr).length = pr.length := by
    rw [hpostdef]
    simpa using hulen
  have hpostsum : (bayesianPosterior e t pr).sum = 1 := by
    rw [hpostdef, sum_map_div]
    exact div_self (ne_of_gt husum)
  have hpostbd : ∀ v ∈ bayesianPosterior e t pr, 0 ≤ v ∧ v ≤ 1 := by
    intro v hv
    rw [hpostdef] at hv
    simp only [List.mem_map] at hv
    obtain ⟨x, hx, rfl⟩ := hv
    refine ⟨div_nonneg (hupos x hx).le husum.le, ?_⟩
    rw [div_le_one husum]
    exact List.single_le_sum (fun y hy => (hupos y hy).le) x hx
  have hprpos : 0 < pr.length := List.length_pos.mpr hne
  obtain ⟨k, hk⟩ : ∃ k, npArgmax (bayesianPosterior e t pr) = .ok k := by
    cases hp : bayesianPosterior e t pr with
    | nil => rw [hp] at hpostlen; simp at hpostlen; omega
    | cons a as => exact ⟨argmaxGo as 1 0 a, by simp [npArgmax]⟩
  have hklt : k < (keys pr).length := by
    have h2 := npArgmax_lt _ k hk
    rw [hpostlen] at h2
    simpa [keys] using h2
  obtain ⟨c, hc⟩ : ∃ c, (keys pr).get? k = some c :=
    ⟨_, List.get?_eq_get hklt⟩
  have hziplen : (keys pr).length = (bayesianPosterior e t pr).length := by
    rw [hpostlen]
    simp [keys]
  refine ⟨{ label := some c
            confidence := some (((bayesianPosterior e t pr).get? k).getD 0)
            probabilities := some ((keys pr).zip (bayesianPosterior e t pr))
            agreement := none
            weights_used := none
            method := some "bayesian" }, ?_, ?_, ?_⟩
  · unfold bayesian_update
    simp only [hk, hc]
  · show (vals ((keys pr).zip (bayesianPosterior e t pr))).sum = 1
    rw [vals_zip _ _ hziplen]
    exact hpostsum
  · show ∀ v ∈ vals ((keys pr).zip (bayesianPosterior e t pr)), 0 ≤ v ∧ v ≤ 1
    rw [vals_zip _ _ hziplen]
    exact hpostbd

/-- C5 (amended): in BAYESIAN mode — the attention-mode text table refutes
the claim as stated — every fuse call without a safety override whose
EEG probability values are positive returns fused emotion and anxiety
predictions whose probability tables have all values in [0, 1] and sum to
exactly 1 (the posterior is renormalized over the fixed priors). -/
theorem bayesian_probabilities_normalized (eeg : Option EEGResults)
    (text : Option TextResults) (cal : Option (List (String × ℚ)))
    (hsafe : apply_safety_rules eeg text = none)
    (hemo : ∀ p, getTruthyPred (eegEmotionPred eeg) = some p →
      ∀ kv ∈ p.probabilities.getD [], 0 < kv.2)
    (hanx : ∀ p, getTruthyPred (eegAnxietyPred eeg) = some p →
      ∀ kv ∈ p.probabilities.getD [], 0 < kv.2) :
    ∃ em ax r, fuse_predictions eeg text cal "bayesian" = .ok r ∧
      r.safety_override = false ∧
      r.emotion_fusion = some em ∧ r.anxiety_fusion = some ax ∧
      (vals (em.probabilities.getD [])).sum = 1 ∧
      (∀ v ∈ vals (em.probabilities.getD []), 0 ≤ v ∧ v ≤ 1) ∧
      (vals (ax.probabilities.getD [])).sum = 1 ∧
      (∀ v ∈ vals (ax.probabilities.getD []), 0 ≤ v ∧ v ≤ 1) := by
  have htEmo : ∀ p, getTruthyPred
      (match getTruthyText text with
       | some _ => text_to_emotion text
       | none => none) = some p →
      ∀ kv ∈ p.probabilities.getD [], 0 < kv.2 := by
    intro p hp kv hkv
    have h2 := getTruthyPred_eq_some _ _ hp
    cases htt : getTruthyText text with
    | none => rw [htt] at h2; simp at h2
    | some tr => rw [htt] at h2; exact text_to_emotion_pos text p h2 kv hkv
  have htAnx : ∀ p, getTruthyPred
      (match getTruthyText text with
       | some _ => text_to_anxiety text
       | none => none) = some p →
      ∀ kv ∈ p.probabilities.getD [], 0 < kv.2 := by
    intro p hp kv hkv
    have h2 := getTruthyPred_eq_some _ _ hp
    cases htt : getTruthyText text with
    | none => rw [htt] at h2; simp at h2
    | some tr => rw [htt] at h2; exact text_to_anxiety_pos text p h2 kv hkv
  obtain ⟨em, hem, hemsum, hembd⟩ := bayesian_update_ok (eegEmotionPred eeg)
    (match getTruthyText text with
     | some _ => text_to_emotion text
     | none => none) priorsEmotion (by decide) (by decide) hemo htEmo
  obtain ⟨ax, hax, haxsum, haxbd⟩ := bayesian_update_ok (eegAnxietyPred eeg)
    (match getTruthyText text with
     | some _ => text_to_anxiety text
     | none => none) priorsAnxiety (by decide) (by decide) hanx htAnx
  have hbay : bayesian_fusion eeg text = .ok ⟨em, ax, .tagged "bayesian"⟩ := by
    unfold bayesian_fusion
    rw [hem, hax]
    rfl
  refine ⟨em, ax, _, fuse_predictions_eq eeg text cal "bayesian" hsafe em ax _
    (by rw [if_neg (by decide), if_pos rfl]; exact hbay),
    rfl, rfl, rfl, hemsum, hembd, haxsum, haxbd⟩

/-- C5 amended witness: a bayesian text-only call (truthy text dict with no
crisis flags) returns posteriors over the fixed priors that sum to 1. -/
theorem bayesian_probabilities_normalized_witness :
    ∃ em ax r, fuse_predictions none (some ⟨none, none, none, some ⟨false⟩⟩)
        none "bayesian" = .ok r ∧
      r.safety_override = false ∧
      r.emotion_fusion = some em ∧ r.anxiety_fusion = some ax ∧
      (vals (em.probabilities.getD [])).sum = 1 ∧
      (∀ v ∈ vals (em.probabilities.getD []), 0 ≤ v ∧ v ≤ 1) ∧
      (vals (ax.probabilities.getD [])).sum = 1 ∧
      (∀ v ∈ vals (ax.probabilities.getD []), 0 ≤ v ∧ v ≤ 1) :=
  bayesian_probabilities_normalized none
    (some ⟨none, none, none, some ⟨false⟩⟩) none (by decide)
    (by intro p h; simp [eegEmotionPred, getTruthyEEG, getTruthyPred] at h)
    (by intro p h; simp [eegAnxietyPred, getTruthyEEG, getTruthyPred] at h)

end MP2
